import Mathlib

/-!
Shallow embedding of the hearsound-analytics order-enrichment and
analytics pipeline.

Sources embedded:
* `src/unnamed/part_000` (cached server): in-memory cache with TTL,
  cursor pagination (`fetchAllOrders`), the `GET /api/orders` handler and
  its per-order enrichment map.
* `src/server/index.js`: same handler/enrichment, no cache.
* `src/client/src/App.js`: two concatenated copies of the dashboard
  component; both copies of `calculateAnalytics` and `fetchOrders` are
  embedded (`calculateAnalytics1` is the first copy, `calculateAnalytics2`
  the second).

Conventions of the embedding:
* JS timestamps are `Int` (milliseconds since epoch); ISO date strings in
  records are represented by the instant they denote.
* A JS number that may be `NaN` is `JsNum`; `parseFloat` of a string is
  abstracted by the parse result `Option Rat` (`none` = the string does
  not parse to a number, so `parseFloat` yields `NaN`).
* A field that may be `null`/`undefined` is an `Option`.
* `Math.round x` is `⌊x + 1/2⌋` (JS rounds half toward +infinity).
-/

namespace HearSound

/-- JS number value: either a genuine number or `NaN`. -/
inductive JsNum where
  | nan : JsNum
  | num (q : Rat) : JsNum
deriving DecidableEq, Repr

/-- The `parseFloat` call on the abstracted parse result of a string:
an unparsable string gives `NaN`. -/
def parseFloatA : Option Rat → JsNum
  | none => .nan
  | some q => .num q

/-- JS `x || 0` applied to a number: `NaN` (falsy) becomes `0`,
`0` stays `0`, every other number is kept. -/
def jsOrZero : JsNum → JsNum
  | .nan => .num 0
  | .num q => .num q

/-- JS `+` on numbers: `NaN` is absorbing. -/
def JsNum.add : JsNum → JsNum → JsNum
  | .num a, .num b => .num (a + b)
  | _, _ => .nan

/-- JS `Math.round`: floor of `q + 1/2` (half rounds toward +infinity). -/
def jsRound (q : Rat) : Int := ⌊q + 1/2⌋

/-! ### Raw upstream order documents (input of the enrichment map) -/

/-- One transaction of a refund; `amount` is the parse-abstraction of the
amount string (`none` when it does not parse as a decimal). -/
structure Transaction where
  amount : Option Rat
deriving DecidableEq, Repr

/-- One refund record of an order. -/
structure Refund where
  created_at : Int
  transactions : Option (List Transaction)
deriving DecidableEq, Repr

/-- One fulfillment record of an order. -/
structure Fulfillment where
  status : Option String
  shipment_status : Option String
  created_at : Int
  updated_at : Int
  tracking_number : Option String
  tracking_url : Option String
deriving DecidableEq, Repr

/-- One line item of an order; `price` is the parse-abstraction of the
price string. -/
structure LineItem where
  product_id : Int
  title : String
  sku : Option String
  quantity : Int
  price : Option Rat
deriving DecidableEq, Repr

/-- Shipping address (only the display name is used). -/
structure ShippingAddress where
  name : String
deriving DecidableEq, Repr

/-- A raw order document as returned by the upstream listing API.
`total_price`: outer `none` = the field is absent or falsy (so
`order.total_price || 0` yields `0`); `some p` = a truthy string whose
parse result is `p`. -/
structure RawOrder where
  id : Int
  order_number : Int
  created_at : Int
  financial_status : String
  shipping_address : Option ShippingAddress
  fulfillment_status : Option String
  fulfillments : Option (List Fulfillment)
  refunds : Option (List Refund)
  line_items : Option (List LineItem)
  total_price : Option (Option Rat)
deriving DecidableEq, Repr

/-! ### Enriched order records (output of the per-order map) -/

/-- The JS value of the `daysToRefund` field:
`null`, a number, or the string sentinel `'before_delivery'`. -/
inductive DaysToRefund where
  | null : DaysToRefund
  | days (n : Int) : DaysToRefund
  | beforeDelivery : DaysToRefund
deriving DecidableEq, Repr

/-- The check `typeof daysToRefund === 'number'`. -/
def DaysToRefund.isNum : DaysToRefund → Bool
  | .days _ => true
  | _ => false

/-- The numeric value of `daysToRefund`; only used after `isNum` filters. -/
def DaysToRefund.getNum : DaysToRefund → Int
  | .days n => n
  | _ => 0

/-- One entry of the enriched `products` list. -/
structure Product where
  id : Int
  title : String
  sku : String
  quantity : Int
  price : JsNum
deriving DecidableEq, Repr

/-- The enriched order object the handler returns for each raw order.
`hasRefunds` is `Option Bool` because `order.refunds &&
order.refunds.length > 0` evaluates to `undefined` (not a boolean) when
`order.refunds` is absent. -/
structure EnrichedOrder where
  id : Int
  orderNumber : Int
  orderDate : Int
  shippingName : String
  fulfillmentStatus : String
  fulfillmentDate : Option Int
  trackingNumber : Option String
  trackingUrl : Option String
  financial_status : String
  refundStatus : String
  deliveryDate : Option Int
  transitStatus : Option String
  refundDate : Option Int
  daysToRefund : DaysToRefund
  hasRefunds : Option Bool
  totalPrice : JsNum
  refundAmount : JsNum
  products : List Product
deriving DecidableEq, Repr

/-! ### The enrichment map (`orders.map(order => ...)` in both servers) -/

/-- The binding `const fulfillment = order.fulfillments && order.fulfillments[0]`:
the first fulfillment, absent when the list is absent or empty. -/
def firstFulfillment (o : RawOrder) : Option Fulfillment :=
  o.fulfillments.bind List.head?

/-- Delivery date: from the first fulfillment only; `updated_at` when its
`shipment_status` is `delivered`, else `created_at` when its `status` is
`success`, else absent. -/
def deliveryDateOf (o : RawOrder) : Option Int :=
  match firstFulfillment o with
  | some f =>
    if f.shipment_status = some "delivered" then some f.updated_at
    else if f.status = some "success" then some f.created_at
    else none
  | none => none

/-- Refund date: `order.refunds[0].created_at` when the refund list is
present and non-empty, else `null`. -/
def refundDateOf (o : RawOrder) : Option Int :=
  match o.refunds with
  | some (r :: _) => some r.created_at
  | _ => none

/-- Field `daysToRefund`: when both dates are present,
`days = Math.round((refundTime - deliveryTime) / 86400000)` and the value
is `days` if `days > 0` else the `'before_delivery'` sentinel;
`null` when either date is absent. -/
def daysToRefundOf (o : RawOrder) : DaysToRefund :=
  match deliveryDateOf o, refundDateOf o with
  | some d, some r =>
    let days := jsRound (((r - d : Int) : Rat) / 86400000)
    if 0 < days then .days days else .beforeDelivery
  | _, _ => .null

/-- Field `refundAmount`: reduce over all refunds of the sum over each refund's
transactions of `parseFloat(t.amount) || 0`, starting from `0`; `0` when
the refund list is absent or empty. -/
def refundAmountOf (o : RawOrder) : JsNum :=
  match o.refunds with
  | some (r :: rs) =>
    (r :: rs).foldl (fun total refund =>
      match refund.transactions with
      | some (t :: ts) =>
        total.add ((t :: ts).foldl
          (fun sum tr => sum.add (jsOrZero (parseFloatA tr.amount))) (.num 0))
      | _ => total) (.num 0)
  | _ => .num 0

/-- Field `products`: map of `line_items` with `sku || 'N/A'` and
`parseFloat(item.price)` (no `|| 0` fallback on the price). -/
def productsOf (o : RawOrder) : List Product :=
  match o.line_items with
  | some items => items.map (fun item =>
      { id := item.product_id
        title := item.title
        sku := item.sku.getD "N/A"
        quantity := item.quantity
        price := parseFloatA item.price })
  | none => []

/-- Field `refundStatus`: the conditional chain on `financial_status`. -/
def refundStatusOf (o : RawOrder) : String :=
  if o.financial_status = "refunded" then "Refunded"
  else if o.financial_status = "partially_refunded" then "Partially Refunded"
  else "Not Refunded"

/-- The enrichment of one raw order, field by field as in the object
literal returned inside `orders.map` in both server files. -/
def enrich (o : RawOrder) : EnrichedOrder :=
  let fulfillment := firstFulfillment o
  { id := o.id
    orderNumber := o.order_number
    orderDate := o.created_at
    shippingName :=
      match o.shipping_address with
      | some a => a.name
      | none => "N/A"
    fulfillmentStatus := o.fulfillment_status.getD "unfulfilled"
    fulfillmentDate := fulfillment.map (·.created_at)
    trackingNumber := fulfillment.bind (·.tracking_number)
    trackingUrl := fulfillment.bind (·.tracking_url)
    financial_status := o.financial_status
    refundStatus := refundStatusOf o
    deliveryDate := deliveryDateOf o
    transitStatus := fulfillment.map
      (fun f => (f.shipment_status.orElse (fun _ => f.status)).getD "unknown")
    refundDate := refundDateOf o
    daysToRefund := daysToRefundOf o
    hasRefunds := o.refunds.map (fun l => decide (0 < l.length))
    totalPrice :=
      match o.total_price with
      | none => .num 0
      | some p => parseFloatA p
    refundAmount := refundAmountOf o
    products := productsOf o }

/-! ### Client-side analytics aggregation (`calculateAnalytics`)

`App.js` contains two concatenated copies of the component;
`calculateAnalytics1` embeds the first copy (lines 42-82) and
`calculateAnalytics2` the second (lines 299-351). The result object is
represented as an association list of (field name, numeric value) so that
which fields the snapshot carries is part of the model. The window bounds
`ws`/`we` are the instants `startOfDay(startDate)` / `endOfDay(endDate)`
the component computes; both date comparisons in the code are inclusive. -/

/-- The snapshot object passed to `setAnalytics`, as (key, value) pairs. -/
abbrev Snapshot := List (String × Rat)

/-- The test `t >= ws && t <= we`: membership of an instant in the inclusive
aggregation window. -/
def inWindow (ws we t : Int) : Bool := ws ≤ t && t ≤ we

/-- The `avgDaysToRefund` computation shared verbatim by both copies:
keep the refunds whose `daysToRefund` is a number, average them (or `0`
when none), and round to one decimal via `Math.round(avg * 10) / 10`. -/
def avgDaysCalc (refundsInRange : List EnrichedOrder) : Rat :=
  let validDaysToRefund :=
    ((refundsInRange.filter (fun o => o.daysToRefund.isNum)).map
      (fun o => o.daysToRefund.getNum))
  let avgDays : Rat :=
    if 0 < validDaysToRefund.length then
      (validDaysToRefund.foldl (fun acc curr => acc + (curr : Rat)) 0) /
        (validDaysToRefund.length : Rat)
    else 0
  ((jsRound (avgDays * 10) : Rat)) / 10

/-- First copy of `calculateAnalytics` (App.js lines 42-82):
`totalOrders` is `orders.length` (no window filter); the refund set is
the two-stage filter by status-and-presence then refund date in window. -/
def calculateAnalytics1 (orders : List EnrichedOrder) (ws we : Int) : Snapshot :=
  let refundedOrders := orders.filter
    (fun o => o.refundStatus = "Refunded" && o.refundDate.isSome)
  let refundsInRange := refundedOrders.filter (fun o =>
    match o.refundDate with
    | some rd => inWindow ws we rd
    | none => false)
  [("totalOrders", (orders.length : Rat)),
   ("totalRefunds", (refundsInRange.length : Rat)),
   ("avgDaysToRefund", avgDaysCalc refundsInRange)]

/-- Second copy of `calculateAnalytics` (App.js lines 299-351):
`totalOrders` counts `ordersInRange` (order date within the window);
the refund set is a single filter that rejects orders without a refund
date or not fully refunded, then checks the refund date window. -/
def calculateAnalytics2 (orders : List EnrichedOrder) (ws we : Int) : Snapshot :=
  let ordersInRange := orders.filter (fun o => inWindow ws we o.orderDate)
  let refundsInRange := orders.filter (fun o =>
    match o.refundDate with
    | none => false
    | some rd => if o.refundStatus = "Refunded" then inWindow ws we rd else false)
  [("totalOrders", (ordersInRange.length : Rat)),
   ("totalRefunds", (refundsInRange.length : Rat)),
   ("avgDaysToRefund", avgDaysCalc refundsInRange)]

/-! ### Client fetch window and server query parameters

JS `Date` values manipulated by `fetchOrders` are modelled as civil
datetimes. `setFullYear` reproduces the JS rollover of Feb 29 to Mar 1
when the target year is not a leap year; months are 0-based as in JS. -/

/-- A JS `Date` as the civil datetime it holds (local time). -/
structure JsDate where
  year : Int
  month : Nat
  day : Nat
  hours : Nat
  minutes : Nat
  seconds : Nat
  ms : Nat
deriving DecidableEq, Repr

/-- Gregorian leap-year test. -/
def isLeapYear (y : Int) : Bool :=
  (y % 4 == 0 && y % 100 != 0) || (y % 400 == 0)

/-- JS `d.setFullYear(y)`: keeps month/day, normalizing Feb 29 to Mar 1
when `y` is not a leap year. -/
def setFullYear (d : JsDate) (y : Int) : JsDate :=
  if d.month = 1 && d.day = 29 && !(isLeapYear y) then
    { d with year := y, month := 2, day := 1 }
  else { d with year := y }

/-- JS `d.setHours(0,0,0,0)`; also `date-fns` `startOfDay`. -/
def setHoursStart (d : JsDate) : JsDate :=
  { d with hours := 0, minutes := 0, seconds := 0, ms := 0 }

/-- JS `d.setHours(23,59,59,999)`; also `date-fns` `endOfDay`. -/
def setHoursEnd (d : JsDate) : JsDate :=
  { d with hours := 23, minutes := 59, seconds := 59, ms := 999 }

/-- The `startDate` query parameter `fetchOrders` sends: one year before
the selected start date, at start of day. -/
def fetchStart (startDate : JsDate) : JsDate :=
  setHoursStart (setFullYear startDate (startDate.year - 1))

/-- The `endDate` query parameter `fetchOrders` sends: the selected end
date at end of day. -/
def fetchEnd (endDate : JsDate) : JsDate := setHoursEnd endDate

/-- The window `calculateAnalytics` compares dates against: `startOfDay`
/ `endOfDay` of the selected (non-widened) dates. -/
def analyticsWindow (startDate endDate : JsDate) : JsDate × JsDate :=
  (setHoursStart startDate, setHoursEnd endDate)

/-- The `fields` projection string of the initial upstream query. -/
def orderFields : String :=
  "id,order_number,created_at,fulfillments,refunds,financial_status,shipping_address,fulfillment_status,total_price,line_items.product_id,line_items.title,line_items.sku,line_items.quantity,line_items.price"

/-- The initial upstream query parameters the handler builds from the
`startDate`/`endDate` it receives (`new Date(x).toISOString()` is the
identity on the instant, so the bounds are passed through unchanged). -/
structure QueryParams where
  status : String
  created_at_min : JsDate
  created_at_max : JsDate
  limit : Nat
  fields : String
deriving DecidableEq, Repr

/-- The `params` object of one upstream page request: either the initial
query or an opaque continuation (`nextPageParameters`). -/
inductive PageParams where
  | initial (q : QueryParams)
  | cursor (token : Nat)
deriving DecidableEq, Repr

/-- The `params` literal in the `GET /api/orders` handler. -/
def handlerParams (startDate endDate : JsDate) : QueryParams :=
  { status := "any"
    created_at_min := startDate
    created_at_max := endDate
    limit := 250
    fields := orderFields }

/-! ### Cache and cursor pagination (`src/unnamed/part_000`) -/

/-- One cache entry: collected raw orders plus capture timestamp. -/
structure CacheEntry where
  data : List RawOrder
  timestamp : Int
deriving DecidableEq, Repr

/-- The in-memory cache. `JSON.stringify(params)` is a stable injective
key for the fixed-shape params objects, so the cache is keyed by the
params value itself; `Map.set` is modelled by prepending, `Map.get` by
first match. -/
abbrev Cache := List (PageParams × CacheEntry)

/-- The constant `CACHE_TTL = 5 * 60 * 1000` milliseconds. -/
def CACHE_TTL : Int := 5 * 60 * 1000

/-- Lookup `cache.get(key)`. -/
def cacheGet : Cache → PageParams → Option CacheEntry
  | [], _ => none
  | (k, e) :: rest, p => if k = p then some e else cacheGet rest p

/-- Store `cache.set(key, entry)`. -/
def cacheSet (c : Cache) (p : PageParams) (e : CacheEntry) : Cache :=
  (p, e) :: c

/-- The periodic sweep: delete every entry with `now - timestamp > TTL`. -/
def sweepCache (now : Int) (c : Cache) : Cache :=
  c.filter (fun kv => !(now - kv.2.timestamp > CACHE_TTL))

/-- The upstream listing API: one page request either fails (a thrown
error, carrying its message) or returns the page's orders plus the
optional `nextPageParameters`. -/
abbrev Upstream := PageParams → Except String (List RawOrder × Option PageParams)

/-- The pagination loop of `fetchAllOrders`: request a page, append its
orders, continue with `nextPageParameters` while present. Returns the
accumulated orders (or the first thrown error) together with the list of
page requests issued, in order. `fuel` bounds the recursion; `none`
means the loop did not finish within `fuel` pages. -/
def collectPages (upstream : Upstream) : Nat → PageParams →
    Option (Except String (List RawOrder) × List PageParams)
  | 0, _ => none
  | Nat.succ fuel, p =>
    match upstream p with
    | .error e => some (.error e, [p])
    | .ok (orders, none) => some (.ok orders, [p])
    | .ok (orders, some nxt) =>
      match collectPages upstream fuel nxt with
      | none => none
      | some (res, reqs) =>
        some ((match res with
               | .ok rest => .ok (orders ++ rest)
               | .error e => .error e), p :: reqs)

/-- The no-hit path of `fetchAllOrders`: run the page loop and, on
success, store the result under the params key with the current
timestamp; a thrown page error propagates and leaves the cache
unchanged. -/
def fetchFresh (upstream : Upstream) (fuel : Nat) (now : Int)
    (cache : Cache) (params : PageParams) :
    Option (Except String (List RawOrder) × Cache × List PageParams) :=
  match collectPages upstream fuel params with
  | none => none
  | some (.error e, reqs) => some (.error e, cache, reqs)
  | some (.ok orders, reqs) =>
    some (.ok orders, cacheSet cache params ⟨orders, now⟩, reqs)

/-- Function `fetchAllOrders` of the cached server: serve a cache hit younger than
`CACHE_TTL` without any page request; otherwise take the fresh path.
Returns (result, cache after the call, page requests issued). -/
def fetchAllOrders (upstream : Upstream) (fuel : Nat) (now : Int)
    (cache : Cache) (params : PageParams) :
    Option (Except String (List RawOrder) × Cache × List PageParams) :=
  match cacheGet cache params with
  | some entry =>
    if now - entry.timestamp < CACHE_TTL then some (.ok entry.data, cache, [])
    else fetchFresh upstream fuel now cache params
  | none => fetchFresh upstream fuel now cache params

/-! ### The `GET /api/orders` handler -/

/-- The JSON body of the handler's response: the enriched array on
success, `{error: message}` on failure. -/
inductive ResponseBody where
  | ordersJson (orders : List EnrichedOrder) : ResponseBody
  | errorJson (msg : String) : ResponseBody
deriving DecidableEq, Repr

/-- An HTTP response: status code and JSON body. -/
structure HttpResponse where
  status : Nat
  body : ResponseBody
deriving DecidableEq, Repr

/-- The `GET /api/orders` handler: build the initial params from the
received dates, collect all pages (through the cache), enrich each order
and answer 200 with the array, or catch the thrown error and answer 500
with `{error: message}`. -/
def handleOrders (upstream : Upstream) (fuel : Nat) (now : Int)
    (cache : Cache) (startDate endDate : JsDate) :
    Option (HttpResponse × Cache × List PageParams) :=
  let params := PageParams.initial (handlerParams startDate endDate)
  match fetchAllOrders upstream fuel now cache params with
  | none => none
  | some (.ok orders, cache2, reqs) =>
    some ({ status := 200, body := .ordersJson (orders.map enrich) }, cache2, reqs)
  | some (.error e, cache2, reqs) =>
    some ({ status := 500, body := .errorJson e }, cache2, reqs)

/-! ### Specification-side predicates (from the spec's wording, for
comparison with the aggregation code) -/

/-- The spec's candidate refund set: refund classification exactly
`Refunded`, refund date present and inside the window. -/
def refundCandidate (ws we : Int) (o : EnrichedOrder) : Bool :=
  o.refundStatus = "Refunded" &&
    (match o.refundDate with
     | some rd => inWindow ws we rd
     | none => false)

/-- The spec's `refundAmount`: the plain rational sum, over all refunds,
of each refund's transaction amounts, an unparsable amount counting 0. -/
def refundAmountSpec (o : RawOrder) : Rat :=
  ((o.refunds.getD []).map (fun r =>
    ((r.transactions.getD []).map (fun t => t.amount.getD 0)).sum)).sum

/-- The spec's `totalOrders`: number of orders whose order date falls in
the window. -/
def ordersInWindowCount (orders : List EnrichedOrder) (ws we : Int) : Nat :=
  (orders.filter (fun o => inWindow ws we o.orderDate)).length

/-! ### Concrete inputs used by witnesses and counterexamples -/

/-- Instant 2024-01-01T00:00:00Z in epoch milliseconds. -/
def deliveryTs : Int := 1704067200000

/-- Instant 2024-01-04T00:00:00Z: three days after `deliveryTs`. -/
def refundTs : Int := deliveryTs + 3 * 86400000

/-- A fully refunded order: delivered (first fulfillment `success`) at
`deliveryTs`, refunded at `refundTs` with a single 19.99 transaction. -/
def rawRefunded : RawOrder :=
  { id := 1001
    order_number := 1
    created_at := deliveryTs - 86400000
    financial_status := "refunded"
    shipping_address := some { name := "Ada" }
    fulfillment_status := some "fulfilled"
    fulfillments := some [{ status := some "success"
                            shipment_status := none
                            created_at := deliveryTs
                            updated_at := deliveryTs
                            tracking_number := some "TRK1"
                            tracking_url := none }]
    refunds := some [{ created_at := refundTs
                       transactions := some [{ amount := some (1999/100) }] }]
    line_items := some [{ product_id := 7
                          title := "Widget"
                          sku := some "SKU1"
                          quantity := 1
                          price := some (1999/100) }]
    total_price := some (some (1999/100)) }

/-- A plain paid order created one day before the epoch (order date
outside a window starting at 0). -/
def rawEarly : RawOrder :=
  { id := 1002
    order_number := 2
    created_at := -86400000
    financial_status := "paid"
    shipping_address := none
    fulfillment_status := none
    fulfillments := none
    refunds := none
    line_items := none
    total_price := none }

/-- A partially refunded order with a refund date at instant 5. -/
def rawPartRefunded : RawOrder :=
  { id := 1003
    order_number := 3
    created_at := 0
    financial_status := "partially_refunded"
    shipping_address := none
    fulfillment_status := none
    fulfillments := none
    refunds := some [{ created_at := 5
                       transactions := some [{ amount := some 5 }] }]
    line_items := none
    total_price := none }

/-- An order whose `refunds` field is absent (`undefined`). -/
def rawNoRefundsField : RawOrder :=
  { id := 1004
    order_number := 4
    created_at := 0
    financial_status := "paid"
    shipping_address := none
    fulfillment_status := none
    fulfillments := none
    refunds := none
    line_items := none
    total_price := none }

/-- An order with an unparsable line-item price and an unparsable
(non-empty) `total_price` string. -/
def rawBadPrice : RawOrder :=
  { id := 1005
    order_number := 5
    created_at := 0
    financial_status := "paid"
    shipping_address := none
    fulfillment_status := none
    fulfillments := none
    refunds := none
    line_items := some [{ product_id := 8
                          title := "Gadget"
                          sku := none
                          quantity := 1
                          price := none }]
    total_price := some none }

/-- An order with two refunds, one of whose transactions has a
non-numeric amount: parsed contributions 0 + 5 and 7. -/
def rawMixed : RawOrder :=
  { id := 1006
    order_number := 6
    created_at := 0
    financial_status := "refunded"
    shipping_address := none
    fulfillment_status := none
    fulfillments := none
    refunds := some [{ created_at := 10
                       transactions := some [{ amount := none },
                                             { amount := some 5 }] },
                     { created_at := 20
                       transactions := some [{ amount := some 7 }] }]
    line_items := none
    total_price := none }

/-- A `refunded` order with a nonzero computed refund amount. -/
def rawStatusA : RawOrder :=
  { rawMixed with id := 1007, order_number := 7 }

/-- A `refunded` order with no refund records at all (refund amount 0). -/
def rawStatusB : RawOrder :=
  { id := 1008
    order_number := 8
    created_at := 0
    financial_status := "refunded"
    shipping_address := none
    fulfillment_status := none
    fulfillments := none
    refunds := some []
    line_items := none
    total_price := none }

/-- Datetime 2024-01-15 10:30 local time. -/
def sampleStart : JsDate :=
  { year := 2024, month := 0, day := 15
    hours := 10, minutes := 30, seconds := 0, ms := 0 }

/-- Datetime 2024-02-15 10:30 local time. -/
def sampleEnd : JsDate :=
  { year := 2024, month := 1, day := 15
    hours := 10, minutes := 30, seconds := 0, ms := 0 }

/-- The initial page params of the sample window. -/
def sampleParams : PageParams :=
  .initial (handlerParams sampleStart sampleEnd)

/-- A one-page upstream that returns `[rawRefunded]` and no continuation. -/
def onePageUpstream : Upstream := fun _ => .ok ([rawRefunded], none)

/-- An upstream whose every page request throws. -/
def failingUpstream : Upstream := fun _ => .error "boom"

/-! ## Helper lemmas -/

/-- Evaluating the `daysToRefund` projection of an enriched order. -/
theorem enrich_daysToRefund (o : RawOrder) :
    (enrich o).daysToRefund = daysToRefundOf o := rfl

/-- Evaluating the `refundDate` projection of an enriched order. -/
theorem enrich_refundDate (o : RawOrder) :
    (enrich o).refundDate = refundDateOf o := rfl

/-- Evaluating the `hasRefunds` projection of an enriched order. -/
theorem enrich_hasRefunds (o : RawOrder) :
    (enrich o).hasRefunds = o.refunds.map (fun l => decide (0 < l.length)) := rfl

/-- Evaluating the `refundStatus` projection of an enriched order. -/
theorem enrich_refundStatus (o : RawOrder) :
    (enrich o).refundStatus = refundStatusOf o := rfl

/-- Rounding zero days gives zero. -/
theorem jsRound_zero : jsRound 0 = 0 := by
  norm_num [jsRound]

/-! ## C3: the days-to-refund policy -/

/-- C3: when both the delivery date and the refund date are derived,
`daysToRefund` is `Math.round((refund - delivery) / 86400000)` when that
value is positive and the `'before_delivery'` sentinel otherwise; a
refund at exactly the delivery instant gives the sentinel, and a numeric
`daysToRefund` is always strictly positive (never negative, never 0). -/
theorem c3_daysToRefund_policy (o : RawOrder) :
    (∀ d r : Int, deliveryDateOf o = some d → refundDateOf o = some r →
      (enrich o).daysToRefund =
        (if 0 < jsRound (((r - d : Int) : Rat) / 86400000)
         then DaysToRefund.days (jsRound (((r - d : Int) : Rat) / 86400000))
         else DaysToRefund.beforeDelivery)) ∧
    (∀ d : Int, deliveryDateOf o = some d → refundDateOf o = some d →
      (enrich o).daysToRefund = DaysToRefund.beforeDelivery) ∧
    (∀ n : Int, (enrich o).daysToRefund = DaysToRefund.days n → 0 < n) := by
  refine ⟨?_, ?_, ?_⟩
  · intro d r hd hr
    rw [enrich_daysToRefund]
    simp only [daysToRefundOf, hd, hr]
  · intro d hd hr
    rw [enrich_daysToRefund]
    simp only [daysToRefundOf, hd, hr]
    simp [sub_self, jsRound_zero]
  · intro n hn
    rw [enrich_daysToRefund] at hn
    rcases h1 : deliveryDateOf o with _ | d <;>
      rcases h2 : refundDateOf o with _ | r <;>
        simp only [daysToRefundOf, h1, h2] at hn
    · cases hn
    · cases hn
    · cases hn
    · split at hn
      · cases hn
        assumption
      · cases hn

/-- Witness for C3 at a concrete order refunded three days after
delivery. -/
theorem c3_daysToRefund_policy_witness :
    (enrich rawRefunded).daysToRefund = DaysToRefund.days 3 := by
  have h := (c3_daysToRefund_policy rawRefunded).1 deliveryTs refundTs rfl rfl
  have h3 : jsRound (((refundTs - deliveryTs : Int) : Rat) / 86400000) = 3 := by
    norm_num [jsRound, refundTs, deliveryTs]
  rw [h3] at h
  simpa using h

/-! ## C8: refund classification -/

/-- C8: the enriched refund classification is the three-way map of
`financial_status` (`refunded` to `Refunded`, `partially_refunded` to
`Partially Refunded`, anything else to `Not Refunded`), and two orders
with the same `financial_status` always classify identically, whatever
their refunds or computed refund amounts are. -/
theorem c8_refund_classification (o o2 : RawOrder) :
    (enrich o).refundStatus =
      (if o.financial_status = "refunded" then "Refunded"
       else if o.financial_status = "partially_refunded" then "Partially Refunded"
       else "Not Refunded") ∧
    (o.financial_status = o2.financial_status →
      (enrich o).refundStatus = (enrich o2).refundStatus) := by
  refine ⟨rfl, ?_⟩
  intro h
  rw [enrich_refundStatus, enrich_refundStatus]
  simp [refundStatusOf, h]

/-- Witness for C8: two `refunded` orders with different computed refund
amounts (12 versus 0) classify identically. -/
theorem c8_refund_classification_witness :
    (enrich rawStatusA).refundStatus = (enrich rawStatusB).refundStatus ∧
    (enrich rawStatusA).refundAmount ≠ (enrich rawStatusB).refundAmount := by
  refine ⟨(c8_refund_classification rawStatusA rawStatusB).2 rfl, ?_⟩
  have hA : (enrich rawStatusA).refundAmount = .num 12 := by
    simp [enrich, refundAmountOf, rawStatusA, rawMixed, JsNum.add, jsOrZero,
      parseFloatA]
    norm_num
  have hB : (enrich rawStatusB).refundAmount = .num 0 := by
    simp [enrich, refundAmountOf, rawStatusB]
  rw [hA, hB]
  intro hc
  cases hc

/-! ## C10: the hasRefunds invariant -/

/-- C10 counterexample: for an order whose `refunds` field is absent the
enriched `hasRefunds` is `undefined` (modelled `none`), not a boolean. -/
theorem c10_hasRefunds_counterexample :
    rawNoRefundsField.refunds = none ∧
    (enrich rawNoRefundsField).hasRefunds = none ∧
    ¬ ∃ b : Bool, (enrich rawNoRefundsField).hasRefunds = some b := by
  refine ⟨rfl, rfl, ?_⟩
  rintro ⟨b, hb⟩
  rw [enrich_hasRefunds] at hb
  simp [rawNoRefundsField] at hb

/-- C10 amended: `hasRefunds` is a boolean exactly when the raw `refunds`
list is present, and is then true exactly when that list is non-empty;
when `refunds` is absent, `hasRefunds` is `undefined`. The enriched
`refundDate` is non-null exactly when `hasRefunds` is `true`, and a
non-null `daysToRefund` occurs only when `hasRefunds` is `true`. -/
theorem c10_hasRefunds_invariant (o : RawOrder) :
    (∀ l, o.refunds = some l →
      (enrich o).hasRefunds = some (decide (0 < l.length))) ∧
    (o.refunds = none → (enrich o).hasRefunds = none) ∧
    ((enrich o).refundDate.isSome ↔ (enrich o).hasRefunds = some true) ∧
    ((enrich o).daysToRefund ≠ DaysToRefund.null →
      (enrich o).hasRefunds = some true) := by
  have hiff : (enrich o).refundDate.isSome ↔ (enrich o).hasRefunds = some true := by
    rw [enrich_refundDate, enrich_hasRefunds]
    rcases ho : o.refunds with _ | l
    · simp [refundDateOf, ho]
    · rcases l with _ | ⟨r, rs⟩
      · simp [refundDateOf, ho]
      · simp [refundDateOf, ho]
  refine ⟨?_, ?_, hiff, ?_⟩
  · intro l hl
    rw [enrich_hasRefunds, hl]
    rfl
  · intro hl
    rw [enrich_hasRefunds, hl]
    rfl
  · intro hne
    apply hiff.mp
    rw [enrich_refundDate]
    rw [enrich_daysToRefund] at hne
    rcases h2 : refundDateOf o with _ | r
    · exfalso
      apply hne
      rcases h1 : deliveryDateOf o with _ | d <;>
        simp only [daysToRefundOf, h1, h2]
    · simp [h2]

/-- Witness for C10 amended, at an order with a present, non-empty
refund list and a numeric `daysToRefund`. -/
theorem c10_hasRefunds_invariant_witness :
    (enrich rawRefunded).daysToRefund ≠ DaysToRefund.null ∧
    (enrich rawRefunded).hasRefunds = some true := by
  have hval : (enrich rawRefunded).daysToRefund = DaysToRefund.days 3 := by
    simp [enrich, daysToRefundOf, deliveryDateOf, refundDateOf, firstFulfillment,
      rawRefunded, refundTs, deliveryTs, jsRound]
    norm_num
  have hne : (enrich rawRefunded).daysToRefund ≠ DaysToRefund.null := by
    rw [hval]
    intro hc
    cases hc
  exact ⟨hne, (c10_hasRefunds_invariant rawRefunded).2.2.2 hne⟩

/-! ## C1: the shape of the analytics snapshot -/

/-- C1 counterexample: the snapshot computed for the empty order list
carries only `totalOrders`, `totalRefunds` and `avgDaysToRefund`; no
`refundRate`, `totalRefundAmount` or `avgRefundAmount` field exists. -/
theorem c1_snapshot_counterexample :
    (calculateAnalytics2 [] 0 0).map Prod.fst =
      ["totalOrders", "totalRefunds", "avgDaysToRefund"] ∧
    "refundRate" ∉ (calculateAnalytics2 [] 0 0).map Prod.fst ∧
    "totalRefundAmount" ∉ (calculateAnalytics2 [] 0 0).map Prod.fst ∧
    "avgRefundAmount" ∉ (calculateAnalytics2 [] 0 0).map Prod.fst := by
  refine ⟨rfl, ?_, ?_, ?_⟩ <;> decide

/-- C1 amended: for every list of enriched orders and every window, both
copies of the aggregation return a snapshot with exactly the three fields
`totalOrders`, `totalRefunds` and `avgDaysToRefund`, and aggregating the
empty list yields all three fields equal to 0. -/
theorem c1_snapshot_fields (orders : List EnrichedOrder) (ws we : Int) :
    (calculateAnalytics1 orders ws we).map Prod.fst =
      ["totalOrders", "totalRefunds", "avgDaysToRefund"] ∧
    (calculateAnalytics2 orders ws we).map Prod.fst =
      ["totalOrders", "totalRefunds", "avgDaysToRefund"] ∧
    calculateAnalytics1 [] ws we =
      [("totalOrders", 0), ("totalRefunds", 0), ("avgDaysToRefund", 0)] ∧
    calculateAnalytics2 [] ws we =
      [("totalOrders", 0), ("totalRefunds", 0), ("avgDaysToRefund", 0)] := by
  refine ⟨rfl, rfl, ?_, ?_⟩ <;>
    · simp [calculateAnalytics1, calculateAnalytics2, avgDaysCalc, jsRound]
      norm_num

/-! ## C2: where the one-year widening happens -/

/-- C2 counterexample: the handler passes the `startDate` it receives
through as the upstream `created_at_min` unchanged; at a concrete
startDate, that value is not one year before the given startDate. -/
theorem c2_handler_counterexample :
    (handlerParams sampleStart sampleEnd).created_at_min = sampleStart ∧
    sampleStart ≠ setFullYear sampleStart (sampleStart.year - 1) ∧
    sampleStart ≠ fetchStart sampleStart := by
  refine ⟨rfl, ?_, ?_⟩ <;> decide

/-- C2 amended: the one-year widening is performed by the client's
`fetchOrders` (start of day, one year before the selected start), the
handler forwards whatever `startDate` it receives unchanged as the
upstream `created_at_min`, and the aggregation window stays the original
selected `startDate..endDate` (at day boundaries). -/
theorem c2_widening_in_client (s e : JsDate) :
    (handlerParams s e).created_at_min = s ∧
    fetchStart s = setHoursStart (setFullYear s (s.year - 1)) ∧
    (handlerParams (fetchStart s) (fetchEnd e)).created_at_min = fetchStart s ∧
    analyticsWindow s e = (setHoursStart s, setHoursEnd e) :=
  ⟨rfl, rfl, rfl, rfl⟩

/-! ## C4: what totalOrders counts -/

/-- C4 counterexample: in the first copy of `calculateAnalytics`, an
order fetched by the widened query whose order date lies before the
window is still counted: `totalOrders` is 1 although no order date falls
within the window. -/
theorem c4_totalOrders_counterexample :
    (enrich rawEarly).orderDate < 0 ∧
    (calculateAnalytics1 [enrich rawEarly] 0 86399999).lookup "totalOrders" =
      some 1 ∧
    ordersInWindowCount [enrich rawEarly] 0 86399999 = 0 := by
  refine ⟨by decide, by decide, by decide⟩

/-- C4 amended: the second copy of `calculateAnalytics` counts exactly
the orders whose order date falls within the window (and the count
depends only on the order dates, not on refund data), while the first
copy reports the length of the whole fetched list, window-widened orders
included. -/
theorem c4_totalOrders_by_copy (orders orders2 : List EnrichedOrder) (ws we : Int) :
    (calculateAnalytics2 orders ws we).lookup "totalOrders" =
      some ((ordersInWindowCount orders ws we : Rat)) ∧
    (calculateAnalytics1 orders ws we).lookup "totalOrders" =
      some ((orders.length : Rat)) ∧
    (orders.map (fun o => o.orderDate) = orders2.map (fun o => o.orderDate) →
      (calculateAnalytics2 orders ws we).lookup "totalOrders" =
        (calculateAnalytics2 orders2 ws we).lookup "totalOrders") := by
  have key : ∀ l : List EnrichedOrder,
      (l.filter (fun o => inWindow ws we o.orderDate)).length =
        (l.map (fun o => o.orderDate)).countP (fun t => inWindow ws we t) := by
    intro l
    rw [List.countP_map]
    rw [← List.countP_eq_length_filter]
    rfl
  refine ⟨rfl, rfl, ?_⟩
  intro h
  have e1 : ∀ l : List EnrichedOrder,
      (calculateAnalytics2 l ws we).lookup "totalOrders" =
        some (((l.filter (fun o => inWindow ws we o.orderDate)).length : Rat)) :=
    fun _ => rfl
  rw [e1, e1, key, key, h]

/-- Witness for C4 amended: two singleton lists with the same order date
but different refund data get the same `totalOrders` from the second
copy. -/
theorem c4_totalOrders_by_copy_witness :
    (calculateAnalytics2 [enrich rawPartRefunded] 0 86399999).lookup "totalOrders" =
      (calculateAnalytics2 [enrich rawNoRefundsField] 0 86399999).lookup "totalOrders" :=
  (c4_totalOrders_by_copy [enrich rawPartRefunded] [enrich rawNoRefundsField]
    0 86399999).2.2 (by decide)

/-! ## C5: what totalRefunds counts -/

/-- C5: in both copies of `calculateAnalytics`, `totalRefunds` counts
exactly the orders whose refund classification is the string `Refunded`
and whose refund date is present and inside the window (selection by
refund date); an order with `financial_status = 'partially_refunded'` is
never such a candidate, whatever its refund date. -/
theorem c5_totalRefunds_candidates (orders : List EnrichedOrder) (ws we : Int) :
    (calculateAnalytics1 orders ws we).lookup "totalRefunds" =
      some (((orders.filter (refundCandidate ws we)).length : Rat)) ∧
    (calculateAnalytics2 orders ws we).lookup "totalRefunds" =
      some (((orders.filter (refundCandidate ws we)).length : Rat)) ∧
    (∀ o : RawOrder, o.financial_status = "partially_refunded" →
      refundCandidate ws we (enrich o) = false) := by
  refine ⟨?_, ?_, ?_⟩
  · have e1 : (calculateAnalytics1 orders ws we).lookup "totalRefunds" =
        some ((((orders.filter
          (fun o => o.refundStatus = "Refunded" && o.refundDate.isSome)).filter
            (fun o => match o.refundDate with
                      | some rd => inWindow ws we rd
                      | none => false)).length : Rat)) := rfl
    rw [e1]
    rw [List.filter_filter]
    congr 2
    refine congrArg List.length ?_
    apply List.filter_congr
    intro o _
    rcases h : o.refundDate with _ | rd <;>
      simp [refundCandidate, h, Bool.and_comm, Bool.and_assoc]
  · have e2 : (calculateAnalytics2 orders ws we).lookup "totalRefunds" =
        some (((orders.filter
          (fun o => match o.refundDate with
                    | none => false
                    | some rd =>
                      if o.refundStatus = "Refunded" then inWindow ws we rd
                      else false)).length : Rat)) := rfl
    rw [e2]
    congr 2
    refine congrArg List.length ?_
    apply List.filter_congr
    intro o _
    rcases h : o.refundDate with _ | rd <;>
      by_cases hs : o.refundStatus = "Refunded" <;>
        simp [refundCandidate, h, hs]
  · intro o h
    have hs : (enrich o).refundStatus = "Partially Refunded" := by
      rw [enrich_refundStatus]
      simp [refundStatusOf, h]
    simp [refundCandidate, hs]

/-- Witness for C5 at a partially refunded order with a refund date
inside the window: it is excluded and contributes no refund count. -/
theorem c5_totalRefunds_candidates_witness :
    refundCandidate 0 999999999 (enrich rawPartRefunded) = false ∧
    (calculateAnalytics2 [enrich rawPartRefunded] 0 999999999).lookup "totalRefunds" =
      some 0 := by
  refine ⟨(c5_totalRefunds_candidates [] 0 999999999).2.2 rawPartRefunded rfl, ?_⟩
  decide

/-! ## C7: monetary parsing defaults -/

/-- The inner transaction fold of `refundAmount` is the plain rational
sum of the parsed amounts, an unparsable amount counting 0. -/
theorem txFold_eq (ts : List Transaction) (q : Rat) :
    ts.foldl (fun sum tr => sum.add (jsOrZero (parseFloatA tr.amount)))
        (JsNum.num q) =
      JsNum.num (q + (ts.map (fun t => t.amount.getD 0)).sum) := by
  induction ts generalizing q with
  | nil => simp
  | cons t ts ih =>
    simp only [List.foldl_cons, List.map_cons, List.sum_cons]
    have hstep : (JsNum.num q).add (jsOrZero (parseFloatA t.amount)) =
        JsNum.num (q + t.amount.getD 0) := by
      rcases t.amount with _ | a <;> simp [parseFloatA, jsOrZero, JsNum.add]
    rw [hstep, ih, add_assoc]

/-- The outer refund fold of `refundAmount` is the plain rational sum
over all refunds of the per-refund transaction sums. -/
theorem refundFold_eq (rs : List Refund) (q : Rat) :
    rs.foldl (fun total refund =>
        match refund.transactions with
        | some (t :: ts) =>
          total.add ((t :: ts).foldl
            (fun sum tr => sum.add (jsOrZero (parseFloatA tr.amount)))
            (JsNum.num 0))
        | _ => total) (JsNum.num q) =
      JsNum.num (q + (rs.map (fun r =>
        ((r.transactions.getD []).map (fun t => t.amount.getD 0)).sum)).sum) := by
  induction rs generalizing q with
  | nil => simp
  | cons r rs ih =>
    rw [List.foldl_cons, List.map_cons, List.sum_cons]
    rcases hr : r.transactions with _ | l
    · simp only [hr]
      rw [ih q]
      simp
    · rcases l with _ | ⟨t, ts⟩
      · simp only [hr]
        rw [ih q]
        simp
      · simp only [hr]
        rw [txFold_eq (t :: ts) 0]
        have hstep : (JsNum.num q).add
            (JsNum.num (0 + ((t :: ts).map (fun tr => tr.amount.getD 0)).sum)) =
            JsNum.num (q + ((t :: ts).map (fun tr => tr.amount.getD 0)).sum) := by
          simp [JsNum.add]
        rw [hstep, ih]
        simp [add_assoc]

/-- C7 counterexample: an unparsable line-item price survives as `NaN`
(`parseFloat` has no fallback there), and a non-empty unparsable
`total_price` also becomes `NaN` — neither becomes 0. -/
theorem c7_money_counterexample :
    (enrich rawBadPrice).products.map (fun p => p.price) = [JsNum.nan] ∧
    (enrich rawBadPrice).totalPrice = JsNum.nan := by
  constructor
  · simp [enrich, productsOf, rawBadPrice, parseFloatA]
  · simp [enrich, rawBadPrice, parseFloatA]

/-- C7 amended: `refundAmount` is always a genuine number, the rational
sum over all refunds' transactions with unparsable amounts counting 0
(those have the `|| 0` fallback); a missing or falsy `total_price`
becomes 0 and a parsable one its value, but an unparsable non-empty
`total_price` becomes `NaN`, and a line-item price is `parseFloat` of
the raw price with no fallback, so an unparsable price is `NaN`, not 0. -/
theorem c7_money_defaults (o : RawOrder) :
    (enrich o).refundAmount = JsNum.num (refundAmountSpec o) ∧
    (o.total_price = none → (enrich o).totalPrice = JsNum.num 0) ∧
    (∀ q : Rat, o.total_price = some (some q) →
      (enrich o).totalPrice = JsNum.num q) ∧
    (o.total_price = some none → (enrich o).totalPrice = JsNum.nan) ∧
    (enrich o).products.map (fun p => p.price) =
      (o.line_items.getD []).map (fun i => parseFloatA i.price) := by
  have htp : (enrich o).totalPrice =
      (match o.total_price with
       | none => JsNum.num 0
       | some p => parseFloatA p) := rfl
  refine ⟨?_, ?_, ?_, ?_, ?_⟩
  · have hra : (enrich o).refundAmount = refundAmountOf o := rfl
    rw [hra]
    rcases ho : o.refunds with _ | l
    · simp [refundAmountOf, ho, refundAmountSpec]
    · rcases l with _ | ⟨r, rs⟩
      · simp [refundAmountOf, ho, refundAmountSpec]
      · have h := refundFold_eq (r :: rs) 0
        simp only [refundAmountOf, ho, refundAmountSpec, Option.getD_some]
        rw [h]
        simp
  · intro h
    rw [htp, h]
  · intro q h
    rw [htp, h]
    rfl
  · intro h
    rw [htp, h]
    rfl
  · have hp : (enrich o).products = productsOf o := rfl
    rw [hp]
    rcases hl : o.line_items with _ | items
    · simp [productsOf, hl]
    · simp [productsOf, hl]

/-- Witness for C7 amended at an order with two refunds, one transaction
unparsable (contributions 0, 5 and 7 sum to 12), and an absent
`total_price` (defaulting to 0). -/
theorem c7_money_defaults_witness :
    (enrich rawMixed).refundAmount = JsNum.num 12 ∧
    (enrich rawMixed).totalPrice = JsNum.num 0 := by
  have h := c7_money_defaults rawMixed
  constructor
  · rw [h.1]
    norm_num [refundAmountSpec, rawMixed]
  · exact h.2.1 rfl

/-! ## C6: cache hits, misses and TTL expiry -/

/-- C6: a cache hit younger than `CACHE_TTL` is served as-is with no
upstream page request; a miss or a stale entry runs the full page
sequence, stores the result under the params key with the current
timestamp and returns it. Hence starting from a miss, a second identical
call within the TTL issues no page request and returns the same list,
and a call at or after TTL expiry re-runs the full page sequence and
restores the result with the new timestamp. -/
theorem c6_cache_ttl (upstream : Upstream) (fuel : Nat) (params : PageParams)
    (cache : Cache) (t1 t2 : Int) (orders : List RawOrder)
    (reqs : List PageParams) :
    (∀ entry, cacheGet cache params = some entry →
      t1 - entry.timestamp < CACHE_TTL →
      fetchAllOrders upstream fuel t1 cache params =
        some (.ok entry.data, cache, [])) ∧
    (∀ entry, cacheGet cache params = some entry →
      ¬ (t1 - entry.timestamp < CACHE_TTL) →
      collectPages upstream fuel params = some (.ok orders, reqs) →
      fetchAllOrders upstream fuel t1 cache params =
        some (.ok orders, cacheSet cache params ⟨orders, t1⟩, reqs)) ∧
    (cacheGet cache params = none →
      collectPages upstream fuel params = some (.ok orders, reqs) →
      fetchAllOrders upstream fuel t1 cache params =
        some (.ok orders, cacheSet cache params ⟨orders, t1⟩, reqs) ∧
      (t2 - t1 < CACHE_TTL →
        fetchAllOrders upstream fuel t2 (cacheSet cache params ⟨orders, t1⟩) params =
          some (.ok orders, cacheSet cache params ⟨orders, t1⟩, [])) ∧
      (¬ (t2 - t1 < CACHE_TTL) →
        fetchAllOrders upstream fuel t2 (cacheSet cache params ⟨orders, t1⟩) params =
          some (.ok orders,
            cacheSet (cacheSet cache params ⟨orders, t1⟩) params ⟨orders, t2⟩,
            reqs))) := by
  have hget : cacheGet (cacheSet cache params ⟨orders, t1⟩) params =
      some ⟨orders, t1⟩ := by
    simp [cacheGet, cacheSet]
  refine ⟨?_, ?_, ?_⟩
  · intro entry he ht
    simp [fetchAllOrders, he, ht]
  · intro entry he ht hc
    simp [fetchAllOrders, fetchFresh, he, ht, hc]
  · intro he hc
    refine ⟨?_, ?_, ?_⟩
    · simp [fetchAllOrders, fetchFresh, he, hc]
    · intro ht
      simp [fetchAllOrders, hget, ht]
    · intro ht
      simp [fetchAllOrders, fetchFresh, hget, ht, hc]

/-- Witness for C6: a one-page upstream; the first call at time 0 issues
one page request and caches, a second identical call at time 60000
(within the 5-minute TTL) issues none, and a call at time 300000 (TTL
expired) re-issues the page sequence. -/
theorem c6_cache_ttl_witness :
    fetchAllOrders onePageUpstream 1 0 [] sampleParams =
      some (.ok [rawRefunded], cacheSet [] sampleParams ⟨[rawRefunded], 0⟩,
        [sampleParams]) ∧
    fetchAllOrders onePageUpstream 1 60000
        (cacheSet [] sampleParams ⟨[rawRefunded], 0⟩) sampleParams =
      some (.ok [rawRefunded], cacheSet [] sampleParams ⟨[rawRefunded], 0⟩, []) ∧
    fetchAllOrders onePageUpstream 1 300000
        (cacheSet [] sampleParams ⟨[rawRefunded], 0⟩) sampleParams =
      some (.ok [rawRefunded],
        cacheSet (cacheSet [] sampleParams ⟨[rawRefunded], 0⟩) sampleParams
          ⟨[rawRefunded], 300000⟩,
        [sampleParams]) := by
  have h := (c6_cache_ttl onePageUpstream 1 sampleParams [] 0 60000
    [rawRefunded] [sampleParams]).2.2 rfl rfl
  have h2 := (c6_cache_ttl onePageUpstream 1 sampleParams [] 0 300000
    [rawRefunded] [sampleParams]).2.2 rfl rfl
  exact ⟨h.1, h.2.1 (by decide), h2.2.2 (by decide)⟩

/-! ## C9: upstream failure handling -/

/-- When the page loop ends in an error, the requests issued are the
successful pages followed by exactly one failing request: nothing is
retried after the failure. -/
theorem collectPages_error_chain (upstream : Upstream) :
    ∀ (fuel : Nat) (p : PageParams) (msg : String) (reqs : List PageParams),
      collectPages upstream fuel p = some (.error msg, reqs) →
      ∃ front lastp, reqs = front ++ [lastp] ∧ upstream lastp = .error msg ∧
        ∀ q ∈ front, ∃ os nq, upstream q = .ok (os, some nq) := by
  intro fuel
  induction fuel with
  | zero =>
    intro p msg reqs h
    simp [collectPages] at h
  | succ n ih =>
    intro p msg reqs h
    simp only [collectPages] at h
    rcases hu : upstream p with e | ⟨os, nxt⟩
    · simp only [hu, Option.some.injEq, Prod.mk.injEq, Except.error.injEq] at h
      obtain ⟨he, hreqs⟩ := h
      refine ⟨[], p, hreqs.symm, he ▸ hu, ?_⟩
      intro q hq
      simp at hq
    · rcases nxt with _ | nxtp
      · simp only [hu] at h
        simp at h
      · simp only [hu] at h
        rcases hc : collectPages upstream n nxtp with _ | ⟨res, rs⟩
        · rw [hc] at h
          simp at h
        · rw [hc] at h
          rcases res with e2 | oks
          · simp only [Option.some.injEq, Prod.mk.injEq, Except.error.injEq] at h
            obtain ⟨he, hreqs⟩ := h
            obtain ⟨front, lastp, hr, hl, hf⟩ := ih nxtp msg rs (he ▸ hc)
            refine ⟨p :: front, lastp, ?_, hl, ?_⟩
            · rw [← hreqs, hr]
              rfl
            · intro q hq
              rcases List.mem_cons.mp hq with hq1 | hq2
              · exact ⟨os, nxtp, hq1 ▸ hu⟩
              · exact hf q hq2
          · simp at h

/-- C9: on the `GET /api/orders` route (fresh cache), if any upstream
page request fails, the response is a 500 whose body is `{error: msg}`
with the thrown message — no partial order list is surfaced, the cache
is left unchanged, and the failing request is the last one issued (no
retry); if the whole page sequence succeeds, the response is a 200 with
the full array of enriched orders. -/
theorem c9_error_propagation (upstream : Upstream) (fuel : Nat) (now : Int)
    (s e : JsDate) :
    (∀ msg reqs,
      collectPages upstream fuel (.initial (handlerParams s e)) =
        some (.error msg, reqs) →
      handleOrders upstream fuel now [] s e =
        some (⟨500, .errorJson msg⟩, [], reqs) ∧
      ∃ front lastp, reqs = front ++ [lastp] ∧ upstream lastp = .error msg ∧
        ∀ q ∈ front, ∃ os nq, upstream q = .ok (os, some nq)) ∧
    (∀ orders reqs,
      collectPages upstream fuel (.initial (handlerParams s e)) =
        some (.ok orders, reqs) →
      handleOrders upstream fuel now [] s e =
        some (⟨200, .ordersJson (orders.map enrich)⟩,
          cacheSet [] (.initial (handlerParams s e)) ⟨orders, now⟩, reqs)) := by
  constructor
  · intro msg reqs h
    constructor
    · simp [handleOrders, fetchAllOrders, fetchFresh, cacheGet, h]
    · exact collectPages_error_chain upstream fuel _ msg reqs h
  · intro orders reqs h
    simp [handleOrders, fetchAllOrders, fetchFresh, cacheGet, h]

/-- Witness for C9: with an upstream whose first page request throws
`boom`, the handler answers 500 with `{error: 'boom'}` after exactly one
request. -/
theorem c9_error_propagation_witness :
    handleOrders failingUpstream 1 0 [] sampleStart sampleEnd =
      some (⟨500, .errorJson "boom"⟩, [], [sampleParams]) ∧
    failingUpstream sampleParams = .error "boom" :=
  ⟨((c9_error_propagation failingUpstream 1 0 sampleStart sampleEnd).1 "boom"
      [sampleParams] rfl).1,
    rfl⟩

end HearSound
